import Mathlib

/-!
Shallow embedding of the camera-flight and arc-path animation controller of
the `valentines` web application (the multi-phase `MapController` variant:
`easeInOutCubic`, `generateArcPath`, `calculateFitZoom`, `flyTo` / `tick`,
and the chapter-change effect), together with theorems about the behaviour
of those definitions.

Modelling conventions:
* JavaScript numbers are modelled exactly: a finite value is a rational.
  `JSNum := Option ℚ` additionally tracks NaN (`none`) where NaN can arise;
  in the embedded geometry code the only division whose denominator can be
  zero is `±0 / 0` (which is NaN in JavaScript), so division by zero is
  modelled as `none`.
* `Math.sqrt` is modelled by an abstract function `SqrtFn` carrying the two
  facts the code relies on: `sqrt 0 = 0` and `sqrt` of a positive number is
  positive.  All theorems are proved for every such function, hence in
  particular for the real square root.
* The per-frame callback `tick(now)` is modelled as a function of the state
  and the elapsed time `now - startTime`.
-/

set_option maxHeartbeats 1000000

namespace Valentines

/-- A JavaScript number in the geometry engine: `some q` is a finite value
(arithmetic taken exact), `none` is NaN. -/
abbrev JSNum : Type := Option ℚ

/-- Embed a finite value into `JSNum`. -/
def jsFin (q : ℚ) : JSNum := some q

instance : Add JSNum := ⟨fun a b => a.bind fun x => b.map fun y => x + y⟩

instance : Sub JSNum := ⟨fun a b => a.bind fun x => b.map fun y => x - y⟩

instance : Mul JSNum := ⟨fun a b => a.bind fun x => b.map fun y => x * y⟩

instance : Neg JSNum := ⟨fun a => a.map fun x => -x⟩

/-- JavaScript division; in the embedded code a zero denominator only occurs
as `±0 / 0`, which is NaN. -/
instance : Div JSNum := ⟨fun a b => a.bind fun x => b.bind fun y =>
  if y = 0 then none else some (x / y)⟩

/-- `Math.pow` with a natural exponent. -/
instance : HPow JSNum ℕ JSNum := ⟨fun a n => a.map fun x => x ^ n⟩

instance (n : ℕ) : OfNat JSNum n := ⟨jsFin (OfNat.ofNat n)⟩

instance : OfScientific JSNum := ⟨fun m e d => jsFin (OfScientific.ofScientific m e d)⟩

theorem jsFin_add (a b : ℚ) : jsFin a + jsFin b = jsFin (a + b) := rfl

theorem jsFin_sub (a b : ℚ) : jsFin a - jsFin b = jsFin (a - b) := rfl

theorem jsFin_mul (a b : ℚ) : jsFin a * jsFin b = jsFin (a * b) := rfl

theorem jsFin_neg (a : ℚ) : -jsFin a = jsFin (-a) := rfl

theorem jsFin_pow (a : ℚ) (n : ℕ) : jsFin a ^ n = jsFin (a ^ n) := rfl

theorem jsFin_div (a b : ℚ) (h : b ≠ 0) : jsFin a / jsFin b = jsFin (a / b) := by
  show Option.bind (some a) _ = _
  simp [jsFin, h]

theorem jsFin_div_zero (a : ℚ) : jsFin a / jsFin 0 = none := by
  show Option.bind (some a) _ = _
  simp [jsFin]

theorem add_nan (a : JSNum) : a + (none : JSNum) = (none : JSNum) := by
  cases a <;> rfl

theorem nan_add (a : JSNum) : (none : JSNum) + a = (none : JSNum) := rfl

theorem mul_nan (a : JSNum) : a * (none : JSNum) = (none : JSNum) := by
  cases a <;> rfl

theorem nan_mul (a : JSNum) : (none : JSNum) * a = (none : JSNum) := rfl

theorem one_eq_jsFin : (1 : JSNum) = jsFin 1 := rfl

theorem sci_eq_jsFin (m : ℕ) (b : Bool) (e : ℕ) :
    (OfScientific.ofScientific m b e : JSNum) =
      jsFin (OfScientific.ofScientific m b e) := rfl

theorem ofNat_eq_jsFin (n : ℕ) [n.AtLeastTwo] :
    (OfNat.ofNat n : JSNum) = jsFin (OfNat.ofNat n) := rfl

/-- Abstract model of `Math.sqrt`, carrying exactly the properties the
embedded code depends on. -/
structure SqrtFn where
  f : ℚ → ℚ
  map_zero : f 0 = 0
  map_pos : ∀ x : ℚ, 0 < x → 0 < f x

/-- `Math.sqrt` lifted to `JSNum` (NaN on NaN or negative input). -/
def SqrtFn.sqrt (s : SqrtFn) (a : JSNum) : JSNum :=
  a.bind fun x => if x < 0 then none else some (s.f x)

theorem SqrtFn.sqrt_jsFin (s : SqrtFn) (a : ℚ) (h : 0 ≤ a) :
    s.sqrt (jsFin a) = jsFin (s.f a) := by
  simp [SqrtFn.sqrt, jsFin, not_lt.2 h]

/-- A concrete instance of the abstract `Math.sqrt` interface, used to
evaluate the embedding on concrete inputs. -/
def idSqrt : SqrtFn := ⟨fun x => x, rfl, fun _ h => h⟩

/-- A latitude/longitude pair (finite input values). -/
structure LatLng where
  lat : ℚ
  lng : ℚ
deriving DecidableEq

/-- A point produced by the geometry engine; coordinates may be NaN. -/
structure JSPoint where
  lat : JSNum
  lng : JSNum
deriving DecidableEq

/-- A chapter location `{lat, lng, zoom}`. -/
structure Location where
  lat : ℚ
  lng : ℚ
  zoom : ℚ
deriving DecidableEq

/-- `function easeInOutCubic(t) { return t < 0.5 ? 4 * t * t * t
: 1 - Math.pow(-2 * t + 2, 3) / 2; }` -/
def easeInOutCubic (t : ℚ) : ℚ :=
  if t < 0.5 then 4 * t * t * t else 1 - (-2 * t + 2) ^ 3 / 2

/-- `generateArcPath(start, end, numPoints = 50)`: quadratic Bézier between
`start` and `endp` with a control point offset perpendicularly from the
midpoint by 30% of the (planar) distance.  The call sites pass finite
coordinates, so the inputs are `LatLng`; all intermediate arithmetic is
JavaScript arithmetic (`JSNum`). -/
def generateArcPath (s : SqrtFn) (start endp : LatLng) (numPoints : ℕ) :
    List JSPoint :=
  let midLat : JSNum := (jsFin start.lat + jsFin endp.lat) / 2
  let midLng : JSNum := (jsFin start.lng + jsFin endp.lng) / 2
  let distance : JSNum :=
    s.sqrt ((jsFin endp.lat - jsFin start.lat) ^ 2 +
            (jsFin endp.lng - jsFin start.lng) ^ 2)
  let arcHeight : JSNum := distance * 0.3
  let dx : JSNum := jsFin endp.lng - jsFin start.lng
  let dy : JSNum := jsFin endp.lat - jsFin start.lat
  let length : JSNum := s.sqrt (dx * dx + dy * dy)
  let perpX : JSNum := -dy / length
  let perpY : JSNum := dx / length
  let controlLat : JSNum := midLat + perpY * arcHeight
  let controlLng : JSNum := midLng + perpX * arcHeight
  (List.range (numPoints + 1)).map fun (i : ℕ) =>
    let t : JSNum := jsFin (i : ℚ) / jsFin (numPoints : ℚ)
    let oneMinusT : JSNum := 1 - t
    { lat := oneMinusT * oneMinusT * jsFin start.lat +
        2 * oneMinusT * t * controlLat + t * t * jsFin endp.lat
      lng := oneMinusT * oneMinusT * jsFin start.lng +
        2 * oneMinusT * t * controlLng + t * t * jsFin endp.lng }

/-- `calculateFitZoom(start, end)`: stepped zoom heuristic on
`max(|Δlat|, |Δlng|)`. -/
def calculateFitZoom (start endp : LatLng) : ℚ :=
  let latDiff := |endp.lat - start.lat|
  let lngDiff := |endp.lng - start.lng|
  let maxDiff := max latDiff lngDiff
  if maxDiff > 60 then 2
  else if maxDiff > 30 then 3
  else if maxDiff > 15 then 4
  else if maxDiff > 8 then 5
  else if maxDiff > 4 then 6
  else if maxDiff > 2 then 7
  else if maxDiff > 1 then 8
  else 9

/-- Modelled from the spec's words (refinement target for C9): the
first-match-wins thresholds table `>60→2, >30→3, >15→4, >8→5, >4→6, >2→7,
>1→8, else 9` applied to `max(|Δlat|, |Δlng|)`. -/
def fitZoomForExtent (start endp : LatLng) : ℚ :=
  let maxDiff := max |endp.lat - start.lat| |endp.lng - start.lng|
  if 60 < maxDiff then 2
  else if 30 < maxDiff then 3
  else if 15 < maxDiff then 4
  else if 8 < maxDiff then 5
  else if 4 < maxDiff then 6
  else if 2 < maxDiff then 7
  else if 1 < maxDiff then 8
  else 9

/-- The stepped lookup as a function of the extent alone (helper). -/
def zoomStep (maxDiff : ℚ) : ℚ :=
  if maxDiff > 60 then 2
  else if maxDiff > 30 then 3
  else if maxDiff > 15 then 4
  else if maxDiff > 8 then 5
  else if maxDiff > 4 then 6
  else if maxDiff > 2 then 7
  else if maxDiff > 1 then 8
  else 9

theorem calculateFitZoom_eq_zoomStep (start endp : LatLng) :
    calculateFitZoom start endp =
      zoomStep (max |endp.lat - start.lat| |endp.lng - start.lng|) := rfl

theorem zoomStep_antitone {x y : ℚ} (h : x ≤ y) : zoomStep y ≤ zoomStep x := by
  unfold zoomStep
  split_ifs <;> linarith

/-- The quadratic Bézier `B(t) = (1-t)²·p0 + 2(1-t)t·p1 + t²·p2`
(the formula named by the spec, used to state C7). -/
def bezierQ (p0 p1 p2 t : ℚ) : ℚ :=
  (1 - t) ^ 2 * p0 + 2 * (1 - t) * t * p1 + t ^ 2 * p2

theorem ease_zero : easeInOutCubic 0 = 0 := by
  unfold easeInOutCubic
  norm_num

theorem ease_one : easeInOutCubic 1 = 1 := by
  unfold easeInOutCubic
  norm_num

theorem ease_mono {a b : ℚ} (ha : 0 ≤ a) (hab : a ≤ b) (hb : b ≤ 1) :
    easeInOutCubic a ≤ easeInOutCubic b := by
  unfold easeInOutCubic
  split_ifs with h1 h2 h2
  · norm_num at h1 h2
    nlinarith [sq_nonneg a, sq_nonneg b, sq_nonneg (a + b), sq_nonneg (a - b),
      mul_nonneg ha ha]
  · norm_num at h1 h2
    have hu0 : (0 : ℚ) ≤ -2 * b + 2 := by linarith
    have hu1 : -2 * b + 2 ≤ 1 := by linarith
    have hcube : (-2 * b + 2) ^ 3 ≤ 1 := by
      nlinarith [mul_nonneg hu0 hu0, mul_nonneg (mul_nonneg hu0 hu0) hu0]
    have ha3 : 4 * a * a * a ≤ 1 / 2 := by nlinarith [mul_nonneg ha ha]
    linarith
  · norm_num at h1 h2
    linarith
  · norm_num at h1 h2
    have hx0 : (0 : ℚ) ≤ -2 * b + 2 := by linarith
    have hxy : -2 * b + 2 ≤ -2 * a + 2 := by linarith
    have hcube : (-2 * b + 2) ^ 3 ≤ (-2 * a + 2) ^ 3 := by
      nlinarith [sq_nonneg ((-2 * b + 2) + (-2 * a + 2)),
        sq_nonneg ((-2 * b + 2) - (-2 * a + 2)),
        mul_nonneg hx0 hx0]
    linarith

theorem ease_symm {t : ℚ} (h0 : 0 ≤ t) (h1 : t ≤ 1) :
    easeInOutCubic t = 1 - easeInOutCubic (1 - t) := by
  unfold easeInOutCubic
  split_ifs with ha hb hb
  · norm_num at ha hb
    linarith
  · ring
  · ring
  · norm_num at ha hb
    have ht : t = 1 / 2 := by linarith
    subst ht
    norm_num

/-- C8: the easing function `easeInOutCubic` satisfies `ease 0 = 0` and
`ease 1 = 1`, is monotone non-decreasing on `[0, 1]`, and is symmetric about
`t = 1/2`: `ease t = 1 - ease (1 - t)` (exactly, in exact arithmetic). -/
theorem C8_ease_contract :
    easeInOutCubic 0 = 0 ∧ easeInOutCubic 1 = 1 ∧
    (∀ a b : ℚ, 0 ≤ a → a ≤ b → b ≤ 1 →
      easeInOutCubic a ≤ easeInOutCubic b) ∧
    ∀ t : ℚ, 0 ≤ t → t ≤ 1 → easeInOutCubic t = 1 - easeInOutCubic (1 - t) :=
  ⟨ease_zero, ease_one, fun _ _ ha hab hb => ease_mono ha hab hb,
   fun _ h0 h1 => ease_symm h0 h1⟩

theorem C8_ease_contract_witness :
    easeInOutCubic (1 / 4) ≤ easeInOutCubic (3 / 4) ∧
    easeInOutCubic (1 / 4) = 1 - easeInOutCubic (1 - 1 / 4) :=
  ⟨C8_ease_contract.2.2.1 (1 / 4) (3 / 4) (by norm_num) (by norm_num)
      (by norm_num),
   C8_ease_contract.2.2.2 (1 / 4) (by norm_num) (by norm_num)⟩

/-- C9: `calculateFitZoom` coincides with the spec's first-match-wins
thresholds table on `max(|Δlat|, |Δlng|)`, and is non-increasing as the
extent grows. -/
theorem C9_fit_zoom :
    (∀ start endp : LatLng,
      calculateFitZoom start endp = fitZoomForExtent start endp) ∧
    ∀ s1 e1 s2 e2 : LatLng,
      max |e1.lat - s1.lat| |e1.lng - s1.lng| ≤
        max |e2.lat - s2.lat| |e2.lng - s2.lng| →
      calculateFitZoom s2 e2 ≤ calculateFitZoom s1 e1 := by
  constructor
  · intro start endp
    rfl
  · intro s1 e1 s2 e2 h
    rw [calculateFitZoom_eq_zoomStep, calculateFitZoom_eq_zoomStep]
    exact zoomStep_antitone h

theorem C9_fit_zoom_witness :
    calculateFitZoom ⟨0, 0⟩ ⟨50, 0⟩ ≤ calculateFitZoom ⟨0, 0⟩ ⟨10, 0⟩ :=
  C9_fit_zoom.2 ⟨0, 0⟩ ⟨10, 0⟩ ⟨0, 0⟩ ⟨50, 0⟩ (by norm_num)

/-- Closed form of the control-point latitude the code computes for distinct
endpoints (the `sqrt` factor in `perpY * arcHeight` cancels exactly):
midpoint latitude offset by 30% of the longitude difference (helper). -/
def ctrlLat (start endp : LatLng) : ℚ :=
  (start.lat + endp.lat) / 2 + (endp.lng - start.lng) * 0.3

/-- Closed form of the control-point longitude (helper). -/
def ctrlLng (start endp : LatLng) : ℚ :=
  (start.lng + endp.lng) / 2 - (endp.lat - start.lat) * 0.3

theorem latlng_ne_coord {p q : LatLng} (h : p ≠ q) :
    p.lat ≠ q.lat ∨ p.lng ≠ q.lng := by
  by_contra hc
  push_neg at hc
  exact h (by cases p; cases q; simp_all)

/-- For distinct endpoints the arc path evaluates, pointwise, to the
quadratic Bézier through `ctrlLat`/`ctrlLng` at `t = i / N` (helper). -/
theorem generateArcPath_of_ne (s : SqrtFn) (start endp : LatLng) (N : ℕ)
    (hne : start ≠ endp) (hN : N ≠ 0) :
    generateArcPath s start endp N =
      (List.range (N + 1)).map fun i =>
        { lat := jsFin (bezierQ start.lat (ctrlLat start endp) endp.lat
            ((i : ℚ) / N))
          lng := jsFin (bezierQ start.lng (ctrlLng start endp) endp.lng
            ((i : ℚ) / N)) } := by
  have hNQ : ((N : ℚ)) ≠ 0 := Nat.cast_ne_zero.2 hN
  have hd : (0 : ℚ) <
      (endp.lng - start.lng) * (endp.lng - start.lng) +
      (endp.lat - start.lat) * (endp.lat - start.lat) := by
    rcases latlng_ne_coord hne with h | h
    · have h1 : (0 : ℚ) < (endp.lat - start.lat) * (endp.lat - start.lat) :=
        mul_self_pos.2 (sub_ne_zero.2 (Ne.symm h))
      nlinarith [mul_self_nonneg (endp.lng - start.lng)]
    · have h1 : (0 : ℚ) < (endp.lng - start.lng) * (endp.lng - start.lng) :=
        mul_self_pos.2 (sub_ne_zero.2 (Ne.symm h))
      nlinarith [mul_self_nonneg (endp.lat - start.lat)]
  have hL : s.f ((endp.lng - start.lng) * (endp.lng - start.lng) +
      (endp.lat - start.lat) * (endp.lat - start.lat)) ≠ 0 :=
    ne_of_gt (s.map_pos _ hd)
  have h2 : (2 : ℚ) ≠ 0 := two_ne_zero
  simp only [generateArcPath]
  simp only [one_eq_jsFin, ofNat_eq_jsFin, sci_eq_jsFin, jsFin_add, jsFin_sub,
    jsFin_mul, jsFin_neg, jsFin_pow]
  simp only [show (endp.lat - start.lat) ^ 2 + (endp.lng - start.lng) ^ 2 =
      (endp.lng - start.lng) * (endp.lng - start.lng) +
      (endp.lat - start.lat) * (endp.lat - start.lat) from by ring]
  simp only [SqrtFn.sqrt_jsFin s _ hd.le]
  simp only [jsFin_div _ _ h2, jsFin_div _ _ hL, jsFin_div _ _ hNQ,
    jsFin_mul, jsFin_add, jsFin_sub, jsFin_neg]
  refine List.map_congr_left fun i _ => ?_
  simp only [JSPoint.mk.injEq, jsFin, Option.some.injEq]
  constructor
  · unfold bezierQ ctrlLat
    field_simp
    ring
  · unfold bezierQ ctrlLng
    field_simp
    ring

/-- C7: for distinct endpoints and `N ≥ 1`, `generateArcPath` returns
exactly `N + 1` points; the first point equals `start` and the last equals
`endp` exactly; and the `i`-th point is the quadratic Bézier
`B(t) = (1-t)²·start + 2(1-t)t·control + t²·endp` sampled at `t = i / N`
for a fixed control point. -/
theorem C7_arc_shape (s : SqrtFn) (start endp : LatLng) (N : ℕ)
    (hne : start ≠ endp) (hN : 1 ≤ N) :
    (generateArcPath s start endp N).length = N + 1 ∧
    (generateArcPath s start endp N).head? =
      some { lat := jsFin start.lat, lng := jsFin start.lng } ∧
    (generateArcPath s start endp N).getLast? =
      some { lat := jsFin endp.lat, lng := jsFin endp.lng } ∧
    ∃ cLat cLng : ℚ, ∀ i : ℕ, i ≤ N →
      (generateArcPath s start endp N)[i]? =
        some { lat := jsFin (bezierQ start.lat cLat endp.lat ((i : ℚ) / N))
               lng := jsFin (bezierQ start.lng cLng endp.lng ((i : ℚ) / N)) } := by
  have hN0 : N ≠ 0 := by omega
  have hNQ : ((N : ℚ)) ≠ 0 := Nat.cast_ne_zero.2 hN0
  rw [generateArcPath_of_ne s start endp N hne hN0]
  refine ⟨by simp, ?_, ?_, ctrlLat start endp, ctrlLng start endp, ?_⟩
  · simp [List.range_succ_eq_map, bezierQ]
  · rw [List.getLast?_eq_getElem?]
    simp only [List.length_map, List.length_range, Nat.add_sub_cancel,
      List.getElem?_map, List.getElem?_range, Nat.lt_succ_self]
    simp [bezierQ, div_self hNQ]
  · intro i hi
    simp only [List.getElem?_map, List.getElem?_range,
      Nat.lt_succ_of_le hi]
    rfl

theorem C7_arc_shape_witness :
    (generateArcPath idSqrt ⟨0, 0⟩ ⟨10, 0⟩ 2).length = 2 + 1 ∧
    (generateArcPath idSqrt ⟨0, 0⟩ ⟨10, 0⟩ 2).head? =
      some { lat := jsFin (0 : ℚ), lng := jsFin (0 : ℚ) } ∧
    (generateArcPath idSqrt ⟨0, 0⟩ ⟨10, 0⟩ 2).getLast? =
      some { lat := jsFin (10 : ℚ), lng := jsFin (0 : ℚ) } ∧
    ∃ cLat cLng : ℚ, ∀ i : ℕ, i ≤ 2 →
      (generateArcPath idSqrt ⟨0, 0⟩ ⟨10, 0⟩ 2)[i]? =
        some { lat := jsFin (bezierQ 0 cLat 10 ((i : ℚ) / 2))
               lng := jsFin (bezierQ 0 cLng 0 ((i : ℚ) / 2)) } :=
  C7_arc_shape idSqrt ⟨0, 0⟩ ⟨10, 0⟩ 2 (by decide) (by norm_num)

/-- C2 (evaluation at the failing input): for coincident endpoints the code
does not return a degenerate single-point path — the zero-length direction
vector produces `-0/0` and `0/0` (NaN), which propagates through the control
point into every Bézier sample, so all 51 returned points have NaN latitude
and longitude. -/
theorem C2_coincident_endpoints_nan (s : SqrtFn) (p : LatLng) :
    generateArcPath s p p 50 =
      List.replicate 51 { lat := (none : JSNum), lng := (none : JSNum) } := by
  simp only [generateArcPath]
  simp only [jsFin_sub, sub_self, jsFin_pow, jsFin_mul, jsFin_neg, neg_zero,
    mul_zero, show (0 : ℚ) ^ 2 = 0 from by norm_num, jsFin_add, add_zero]
  simp only [show s.sqrt (jsFin 0) = jsFin (s.f 0) from s.sqrt_jsFin 0 le_rfl,
    s.map_zero]
  simp only [jsFin_div_zero, nan_mul, mul_nan, add_nan, nan_add]
  simp

/-- The camera pose (the `map.setCenter` / `map.setZoom` state). -/
structure CameraPose where
  lat : ℚ
  lng : ℚ
  zoom : ℚ
deriving DecidableEq

/-- The state captured by one `flyTo` invocation: the variables the running
`tick` closure reads (`startLat`, `startLng`, `startZoom`, `toLocation`,
`midLat`, `midLng`, `fitZoom`, `arcPath`, `skipLine`, `totalDuration`). -/
structure Flight where
  startLat : ℚ
  startLng : ℚ
  startZoom : ℚ
  toLocation : Location
  midLat : ℚ
  midLng : ℚ
  fitZoom : ℚ
  arcPath : List JSPoint
  skipLine : Bool
  totalDuration : ℚ
deriving DecidableEq

/-- The animator's state: the `isAnimatingRef` flag, the running flight's
captured closure state (`none` when no tick callback is scheduled), the
camera pose, and the last `onUpdateFlightLine` argument (`none` models a
cleared line, i.e. `onUpdateFlightLine(null)`). -/
structure AnimState where
  animating : Bool
  flight : Option Flight
  pose : CameraPose
  flightLine : Option (List JSPoint)
deriving DecidableEq

/-- `flyTo(toLocation, totalDuration = 3500, skipLine = false)` up to the
scheduling of the first frame: guarded no-op while animating; otherwise
captures the start pose, computes the chord midpoint, the fitted zoom
`max(calculateFitZoom(start, to) - 1, 1)` and the 50-sample arc, clears the
previously drawn line, and marks the animation active. -/
def flyTo (s : SqrtFn) (st : AnimState) (toLocation : Location)
    (totalDuration : ℚ) (skipLine : Bool) : AnimState :=
  if st.animating then st else
  let startLat := st.pose.lat
  let startLng := st.pose.lng
  let startZoom := st.pose.zoom
  let midLat := (startLat + toLocation.lat) / 2
  let midLng := (startLng + toLocation.lng) / 2
  let fitZoom0 := calculateFitZoom ⟨startLat, startLng⟩
    ⟨toLocation.lat, toLocation.lng⟩
  let fitZoom := max (fitZoom0 - 1) 1
  let arcPath := generateArcPath s ⟨startLat, startLng⟩
    ⟨toLocation.lat, toLocation.lng⟩ 50
  { animating := true
    flight := some ⟨startLat, startLng, startZoom, toLocation, midLat, midLng,
      fitZoom, arcPath, skipLine, totalDuration⟩
    pose := st.pose
    flightLine := none }

/-- The per-frame values `lat`, `lng`, `zoom`, `arcProgress` that `tick`
assigns in its branch on the elapsed time (helper record mirroring the
mutable locals of `tick`). -/
structure TickVals where
  lat : ℚ
  lng : ℚ
  zoom : ℚ
  arcProgress : ℚ
deriving DecidableEq

/-- One invocation of the `tick(now)` frame callback of the active flight,
with `elapsed = now - startTime`.  When `totalProgress` reaches 1 no further
frame is scheduled (modelled by `flight := none`) and the `isAnimatingRef`
flag clears. -/
def tick (st : AnimState) (elapsed : ℚ) : AnimState :=
  match st.flight with
  | none => st
  | some fl =>
    let totalProgress := min (elapsed / fl.totalDuration) 1
    let phase1Duration := fl.totalDuration * 0.20
    let phase2Duration := fl.totalDuration * 0.60
    let phase3Duration := fl.totalDuration * 0.20
    let v : TickVals :=
      if elapsed < phase1Duration then
        let phaseProgress := elapsed / phase1Duration
        let eased := easeInOutCubic phaseProgress
        { lat := fl.startLat + (fl.midLat - fl.startLat) * eased
          lng := fl.startLng + (fl.midLng - fl.startLng) * eased
          zoom := fl.startZoom + (fl.fitZoom - fl.startZoom) * eased
          arcProgress := 0 }
      else if elapsed < phase1Duration + phase2Duration then
        let phaseElapsed := elapsed - phase1Duration
        let phaseProgress := phaseElapsed / phase2Duration
        let eased := easeInOutCubic phaseProgress
        { lat := fl.midLat
          lng := fl.midLng
          zoom := fl.fitZoom
          arcProgress := eased }
      else
        let phaseElapsed := elapsed - phase1Duration - phase2Duration
        let phaseProgress := phaseElapsed / phase3Duration
        let eased := easeInOutCubic phaseProgress
        { lat := fl.midLat + (fl.toLocation.lat - fl.midLat) * eased
          lng := fl.midLng + (fl.toLocation.lng - fl.midLng) * eased
          zoom := fl.fitZoom + (fl.toLocation.zoom - fl.fitZoom) * eased
          arcProgress := 1 }
    let st1 := { st with pose := ⟨v.lat, v.lng, v.zoom⟩ }
    let st2 :=
      if fl.skipLine = false ∧ 0 < v.arcProgress then
        let visiblePoints := (⌈v.arcProgress * (fl.arcPath.length : ℚ)⌉).toNat
        { st1 with flightLine := some (fl.arcPath.take visiblePoints) }
      else st1
    if totalProgress < 1 then st2
    else
      { st2 with
        animating := false
        flight := none
        flightLine := if fl.skipLine = false then some fl.arcPath
          else st2.flightLine }

/-- The flight record a successful `flyTo` captures (helper). -/
def mkFlight (s : SqrtFn) (st : AnimState) (toLocation : Location)
    (totalDuration : ℚ) (skipLine : Bool) : Flight :=
  { startLat := st.pose.lat
    startLng := st.pose.lng
    startZoom := st.pose.zoom
    toLocation := toLocation
    midLat := (st.pose.lat + toLocation.lat) / 2
    midLng := (st.pose.lng + toLocation.lng) / 2
    fitZoom := max (calculateFitZoom ⟨st.pose.lat, st.pose.lng⟩
      ⟨toLocation.lat, toLocation.lng⟩ - 1) 1
    arcPath := generateArcPath s ⟨st.pose.lat, st.pose.lng⟩
      ⟨toLocation.lat, toLocation.lng⟩ 50
    skipLine := skipLine
    totalDuration := totalDuration }

theorem flyTo_eq {st : AnimState} (s : SqrtFn) (toLocation : Location)
    (totalDuration : ℚ) (skipLine : Bool) (hidle : st.animating = false) :
    flyTo s st toLocation totalDuration skipLine =
      { animating := true
        flight := some (mkFlight s st toLocation totalDuration skipLine)
        pose := st.pose
        flightLine := none } := by
  unfold flyTo mkFlight
  rw [hidle]
  simp

theorem tick_phase1 {st : AnimState} {fl : Flight} {e : ℚ}
    (h : st.flight = some fl) (hT : 0 < fl.totalDuration)
    (h1 : e < fl.totalDuration * 0.20) :
    tick st e =
      { st with pose :=
        ⟨fl.startLat + (fl.midLat - fl.startLat) *
            easeInOutCubic (e / (fl.totalDuration * 0.20)),
          fl.startLng + (fl.midLng - fl.startLng) *
            easeInOutCubic (e / (fl.totalDuration * 0.20)),
          fl.startZoom + (fl.fitZoom - fl.startZoom) *
            easeInOutCubic (e / (fl.totalDuration * 0.20))⟩ } := by
  have hlt : min (e / fl.totalDuration) 1 < 1 := by
    refine min_lt_iff.2 (Or.inl ((div_lt_one hT).2 ?_))
    nlinarith
  unfold tick
  rw [h]
  dsimp only
  rw [if_pos h1, if_pos hlt]
  rw [if_neg]
  rintro ⟨-, hc⟩
  exact lt_irrefl 0 hc

theorem tick_phase2 {st : AnimState} {fl : Flight} {e : ℚ}
    (h : st.flight = some fl) (hT : 0 < fl.totalDuration)
    (h1 : ¬ e < fl.totalDuration * 0.20)
    (h2 : e < fl.totalDuration * 0.20 + fl.totalDuration * 0.60) :
    (tick st e).pose = ⟨fl.midLat, fl.midLng, fl.fitZoom⟩ ∧
    (fl.skipLine = false →
      0 < easeInOutCubic ((e - fl.totalDuration * 0.20) /
        (fl.totalDuration * 0.60)) →
      (tick st e).flightLine = some (fl.arcPath.take
        ((⌈easeInOutCubic ((e - fl.totalDuration * 0.20) /
            (fl.totalDuration * 0.60)) * (fl.arcPath.length : ℚ)⌉).toNat))) ∧
    (easeInOutCubic ((e - fl.totalDuration * 0.20) /
        (fl.totalDuration * 0.60)) = 0 →
      (tick st e).flightLine = st.flightLine) := by
  have hlt : min (e / fl.totalDuration) 1 < 1 := by
    refine min_lt_iff.2 (Or.inl ((div_lt_one hT).2 ?_))
    nlinarith
  unfold tick
  rw [h]
  dsimp only
  rw [if_neg h1, if_pos h2, if_pos hlt]
  refine ⟨?_, ?_, ?_⟩
  · split_ifs <;> rfl
  · intro hsk hpos
    rw [if_pos ⟨hsk, hpos⟩]
  · intro hz
    rw [if_neg]
    rintro ⟨-, hc⟩
    rw [hz] at hc
    exact lt_irrefl 0 hc

theorem tick_phase3_pose {st : AnimState} {fl : Flight} {e : ℚ}
    (h : st.flight = some fl)
    (h2 : ¬ e < fl.totalDuration * 0.20 + fl.totalDuration * 0.60)
    (hT : 0 < fl.totalDuration) :
    (tick st e).pose =
      ⟨fl.midLat + (fl.toLocation.lat - fl.midLat) *
          easeInOutCubic ((e - fl.totalDuration * 0.20 -
            fl.totalDuration * 0.60) / (fl.totalDuration * 0.20)),
        fl.midLng + (fl.toLocation.lng - fl.midLng) *
          easeInOutCubic ((e - fl.totalDuration * 0.20 -
            fl.totalDuration * 0.60) / (fl.totalDuration * 0.20)),
        fl.fitZoom + (fl.toLocation.zoom - fl.fitZoom) *
          easeInOutCubic ((e - fl.totalDuration * 0.20 -
            fl.totalDuration * 0.60) / (fl.totalDuration * 0.20))⟩ := by
  have h1 : ¬ e < fl.totalDuration * 0.20 := by
    intro hc
    apply h2
    nlinarith
  unfold tick
  rw [h]
  dsimp only
  rw [if_neg h1, if_neg h2]
  split_ifs <;> rfl

theorem tick_complete {st : AnimState} {fl : Flight} {e : ℚ}
    (h : st.flight = some fl) (hT : 0 < fl.totalDuration)
    (he : fl.totalDuration ≤ e) :
    (tick st e).animating = false ∧ (tick st e).flight = none ∧
    (fl.skipLine = false → (tick st e).flightLine = some fl.arcPath) := by
  have hnlt : ¬ min (e / fl.totalDuration) 1 < 1 := by
    rw [min_eq_right ((one_le_div hT).2 he)]
    exact lt_irrefl 1
  unfold tick
  rw [h]
  dsimp only
  rw [if_neg hnlt]
  refine ⟨rfl, rfl, fun hsk => ?_⟩
  simp [hsk]

/-- A demonstration idle animator state at the intro pose (helper). -/
def idleAnim : AnimState :=
  { animating := false, flight := none, pose := ⟨38, 50, 3⟩,
    flightLine := none }

/-- The Paris location of the spec's scenario (helper). -/
def paris : Location := ⟨48.8566, 2.3522, 12⟩

/-- C3: the at-most-one-flight invariant: calling `flyTo` while the
animating flag is set leaves the whole animator state — the in-progress
flight's captured target, arc path and parameters, the camera pose and the
revealed line — unchanged, and starts no new flight. -/
theorem C3_flyTo_noop_when_animating (s : SqrtFn) (st : AnimState)
    (toLocation : Location) (d : ℚ) (sk : Bool) (h : st.animating = true) :
    flyTo s st toLocation d sk = st := by
  unfold flyTo
  rw [h]
  simp

theorem ease_pos {t : ℚ} (h : 0 < t) : 0 < easeInOutCubic t := by
  unfold easeInOutCubic
  split_ifs with h5
  · positivity
  · norm_num at h5
    have hu1 : -2 * t + 2 ≤ 1 := by linarith
    have hu0 : (0 : ℚ) ≤ -2 * t + 2 ∨ -2 * t + 2 < 0 := le_or_lt _ _
    rcases hu0 with hu0 | hu0
    · nlinarith [mul_nonneg hu0 hu0, mul_nonneg (mul_nonneg hu0 hu0) hu0]
    · nlinarith [mul_pos (mul_pos (neg_pos.2 hu0) (neg_pos.2 hu0))
        (neg_pos.2 hu0)]

/-- The flight target used in the C1 counterexample (helper). -/
def tgt10 : Location := ⟨10, 0, 12⟩

/-- C1 counterexample: flying from the idle pose (lat 38) to `tgt10`
(lat 10) with totalDuration 1000, the terminating frame at elapsed
1100 ≥ 1000 leaves the camera at lat 3, past the target: the phase-3
easing is evaluated at progress 1.5 and overshoots, so the emitted pose on
the first frame with elapsed ≥ totalDuration is not the exact target. -/
theorem C1_overshoot_counterexample :
    (1000 : ℚ) ≤ 1100 ∧
    (tick (flyTo idSqrt idleAnim tgt10 1000 false) 1100).pose.lat = 3 ∧
    tgt10.lat = 10 ∧
    (tick (flyTo idSqrt idleAnim tgt10 1000 false) 1100).pose.lat ≠
      tgt10.lat := by
  have hfl : (flyTo idSqrt idleAnim tgt10 1000 false).flight =
      some (mkFlight idSqrt idleAnim tgt10 1000 false) := by
    rw [flyTo_eq idSqrt tgt10 1000 false rfl]
  have hp := @tick_phase3_pose _ _ 1100 hfl (by norm_num [mkFlight])
    (by norm_num [mkFlight])
  rw [hp]
  norm_num [mkFlight, idleAnim, tgt10, easeInOutCubic]

/-- C1 amended: on every frame with elapsed ≥ totalDuration the
flight-active flag clears (a subsequent `flyTo` is accepted), no further
frame is scheduled, and for skipLine = false the revealed path is force-set
to the full precomputed arc.  The camera pose equals the target exactly
when elapsed = totalDuration; it is not pinned in general (for
elapsed > totalDuration it is the unclamped phase-3 interpolation, which
overshoots — see the counterexample). -/
theorem C1_completion (s : SqrtFn) (st : AnimState) (toLocation : Location)
    (T e : ℚ) (sk : Bool) (hidle : st.animating = false) (hT : 0 < T)
    (he : T ≤ e) :
    (tick (flyTo s st toLocation T sk) e).animating = false ∧
    (tick (flyTo s st toLocation T sk) e).flight = none ∧
    (sk = false → (tick (flyTo s st toLocation T sk) e).flightLine =
      some (generateArcPath s ⟨st.pose.lat, st.pose.lng⟩
        ⟨toLocation.lat, toLocation.lng⟩ 50)) ∧
    (e = T → (tick (flyTo s st toLocation T sk) e).pose =
      ⟨toLocation.lat, toLocation.lng, toLocation.zoom⟩) ∧
    ∀ to2 T2 sk2,
      (flyTo s (tick (flyTo s st toLocation T sk) e) to2 T2 sk2).animating =
        true := by
  have hfl : (flyTo s st toLocation T sk).flight =
      some (mkFlight s st toLocation T sk) := by
    rw [flyTo_eq s toLocation T sk hidle]
  have hT' : 0 < (mkFlight s st toLocation T sk).totalDuration := hT
  have he' : (mkFlight s st toLocation T sk).totalDuration ≤ e := he
  obtain ⟨ha, hf, hline⟩ := tick_complete hfl hT' he'
  refine ⟨ha, hf, fun hsk => hline hsk, fun heT => ?_, fun to2 T2 sk2 => ?_⟩
  · subst heT
    have hp := @tick_phase3_pose _ _ e hfl
      (by
        show ¬ e < e * 0.20 + e * 0.60
        push_neg
        nlinarith) hT'
    rw [hp]
    have h5 : (0 : ℚ) < e * 0.20 := by nlinarith
    have heq : easeInOutCubic ((e - (mkFlight s st toLocation e sk).totalDuration
        * 0.20 - (mkFlight s st toLocation e sk).totalDuration * 0.60) /
        ((mkFlight s st toLocation e sk).totalDuration * 0.20)) = 1 := by
      show easeInOutCubic ((e - e * 0.20 - e * 0.60) / (e * 0.20)) = 1
      rw [show e - e * 0.20 - e * 0.60 = e * 0.20 from by ring,
        div_self (ne_of_gt h5)]
      exact ease_one
    rw [heq]
    show CameraPose.mk _ _ _ = _
    simp only [CameraPose.mk.injEq, mkFlight]
    refine ⟨by ring, by ring, by ring⟩
  · rw [flyTo_eq s to2 T2 sk2 ha]

theorem C1_completion_witness :
    (tick (flyTo idSqrt idleAnim paris 1000 false) 1000).animating = false ∧
    (tick (flyTo idSqrt idleAnim paris 1000 false) 1000).flight = none ∧
    (false = false →
      (tick (flyTo idSqrt idleAnim paris 1000 false) 1000).flightLine =
        some (generateArcPath idSqrt ⟨idleAnim.pose.lat, idleAnim.pose.lng⟩
          ⟨paris.lat, paris.lng⟩ 50)) ∧
    ((1000 : ℚ) = 1000 →
      (tick (flyTo idSqrt idleAnim paris 1000 false) 1000).pose =
        ⟨paris.lat, paris.lng, paris.zoom⟩) ∧
    ∀ to2 T2 sk2,
      (flyTo idSqrt (tick (flyTo idSqrt idleAnim paris 1000 false) 1000)
        to2 T2 sk2).animating = true :=
  C1_completion idSqrt idleAnim paris 1000 1000 false rfl (by norm_num) le_rfl

/-- C4: three-phase timing of a flight started by `flyTo` from an idle
state.  For elapsed below 20% of totalDuration the camera eases from the
start pose toward the chord midpoint and from start zoom toward the fitted
zoom `max(calculateFitZoom − 1, 1)`, with the arc not yet revealed (the
state is otherwise unchanged, the line still the cleared `none`).  For
elapsed in [20%, 80%) the pose is held at the midpoint and fitted zoom,
and (for skipLine = false, strictly past the 20% boundary) the revealed
line is the prefix of `⌈eased · count⌉` arc points, growing from 0 to the
full arc.  At or beyond 80% the camera eases from the midpoint to the
target and from the fitted zoom to the target's declared zoom. -/
theorem C4_three_phases (s : SqrtFn) (st : AnimState) (toLocation : Location)
    (T : ℚ) (sk : Bool) (hidle : st.animating = false) (hT : 0 < T) :
    (∀ e, e < T * 0.20 →
      tick (flyTo s st toLocation T sk) e =
        { animating := true
          flight := some (mkFlight s st toLocation T sk)
          pose := ⟨st.pose.lat +
              ((st.pose.lat + toLocation.lat) / 2 - st.pose.lat) *
                easeInOutCubic (e / (T * 0.20)),
            st.pose.lng +
              ((st.pose.lng + toLocation.lng) / 2 - st.pose.lng) *
                easeInOutCubic (e / (T * 0.20)),
            st.pose.zoom +
              (max (calculateFitZoom ⟨st.pose.lat, st.pose.lng⟩
                  ⟨toLocation.lat, toLocation.lng⟩ - 1) 1 - st.pose.zoom) *
                easeInOutCubic (e / (T * 0.20))⟩
          flightLine := none }) ∧
    (∀ e, T * 0.20 ≤ e → e < T * 0.80 →
      (tick (flyTo s st toLocation T sk) e).pose =
        ⟨(st.pose.lat + toLocation.lat) / 2,
          (st.pose.lng + toLocation.lng) / 2,
          max (calculateFitZoom ⟨st.pose.lat, st.pose.lng⟩
            ⟨toLocation.lat, toLocation.lng⟩ - 1) 1⟩ ∧
      (sk = false → T * 0.20 < e →
        (tick (flyTo s st toLocation T sk) e).flightLine =
          some ((generateArcPath s ⟨st.pose.lat, st.pose.lng⟩
              ⟨toLocation.lat, toLocation.lng⟩ 50).take
            ((⌈easeInOutCubic ((e - T * 0.20) / (T * 0.60)) *
              ((generateArcPath s ⟨st.pose.lat, st.pose.lng⟩
                ⟨toLocation.lat, toLocation.lng⟩ 50).length : ℚ)⌉).toNat)))) ∧
    ∀ e, T * 0.80 ≤ e →
      (tick (flyTo s st toLocation T sk) e).pose =
        ⟨(st.pose.lat + toLocation.lat) / 2 +
            (toLocation.lat - (st.pose.lat + toLocation.lat) / 2) *
              easeInOutCubic ((e - T * 0.20 - T * 0.60) / (T * 0.20)),
          (st.pose.lng + toLocation.lng) / 2 +
            (toLocation.lng - (st.pose.lng + toLocation.lng) / 2) *
              easeInOutCubic ((e - T * 0.20 - T * 0.60) / (T * 0.20)),
          max (calculateFitZoom ⟨st.pose.lat, st.pose.lng⟩
              ⟨toLocation.lat, toLocation.lng⟩ - 1) 1 +
            (toLocation.zoom - max (calculateFitZoom ⟨st.pose.lat, st.pose.lng⟩
              ⟨toLocation.lat, toLocation.lng⟩ - 1) 1) *
              easeInOutCubic ((e - T * 0.20 - T * 0.60) / (T * 0.20))⟩ := by
  have hfl : (flyTo s st toLocation T sk).flight =
      some (mkFlight s st toLocation T sk) := by
    rw [flyTo_eq s toLocation T sk hidle]
  have hT' : 0 < (mkFlight s st toLocation T sk).totalDuration := hT
  refine ⟨fun e h1 => ?_, fun e h1 h2 => ?_, fun e h3 => ?_⟩
  · rw [flyTo_eq s toLocation T sk hidle]
    exact tick_phase1 rfl hT' h1
  · have h2' : e < (mkFlight s st toLocation T sk).totalDuration * 0.20 +
        (mkFlight s st toLocation T sk).totalDuration * 0.60 := by
      show e < T * 0.20 + T * 0.60
      nlinarith
    obtain ⟨hpose, hline, -⟩ :=
      tick_phase2 hfl hT' (not_lt.2 h1) h2'
    refine ⟨hpose, fun hsk hgt => hline hsk (ease_pos ?_)⟩
    show (0 : ℚ) < (e - T * 0.20) / (T * 0.60)
    refine div_pos (by linarith) (by nlinarith)
  · refine tick_phase3_pose hfl (not_lt.2 ?_) hT'
    show T * 0.20 + T * 0.60 ≤ e
    nlinarith

theorem C4_three_phases_witness :
    tick (flyTo idSqrt idleAnim paris 1000 false) 100 =
      { animating := true
        flight := some (mkFlight idSqrt idleAnim paris 1000 false)
        pose := ⟨idleAnim.pose.lat +
            ((idleAnim.pose.lat + paris.lat) / 2 - idleAnim.pose.lat) *
              easeInOutCubic (100 / (1000 * 0.20)),
          idleAnim.pose.lng +
            ((idleAnim.pose.lng + paris.lng) / 2 - idleAnim.pose.lng) *
              easeInOutCubic (100 / (1000 * 0.20)),
          idleAnim.pose.zoom +
            (max (calculateFitZoom ⟨idleAnim.pose.lat, idleAnim.pose.lng⟩
                ⟨paris.lat, paris.lng⟩ - 1) 1 - idleAnim.pose.zoom) *
              easeInOutCubic (100 / (1000 * 0.20))⟩
        flightLine := none } ∧
    (tick (flyTo idSqrt idleAnim paris 1000 false) 500).pose =
      ⟨(idleAnim.pose.lat + paris.lat) / 2,
        (idleAnim.pose.lng + paris.lng) / 2,
        max (calculateFitZoom ⟨idleAnim.pose.lat, idleAnim.pose.lng⟩
          ⟨paris.lat, paris.lng⟩ - 1) 1⟩ ∧
    (tick (flyTo idSqrt idleAnim paris 1000 false) 500).flightLine =
      some ((generateArcPath idSqrt ⟨idleAnim.pose.lat, idleAnim.pose.lng⟩
          ⟨paris.lat, paris.lng⟩ 50).take
        ((⌈easeInOutCubic ((500 - 1000 * 0.20) / (1000 * 0.60)) *
          ((generateArcPath idSqrt ⟨idleAnim.pose.lat, idleAnim.pose.lng⟩
            ⟨paris.lat, paris.lng⟩ 50).length : ℚ)⌉).toNat)) ∧
    (tick (flyTo idSqrt idleAnim paris 1000 false) 900).pose =
      ⟨(idleAnim.pose.lat + paris.lat) / 2 +
          (paris.lat - (idleAnim.pose.lat + paris.lat) / 2) *
            easeInOutCubic ((900 - 1000 * 0.20 - 1000 * 0.60) / (1000 * 0.20)),
        (idleAnim.pose.lng + paris.lng) / 2 +
          (paris.lng - (idleAnim.pose.lng + paris.lng) / 2) *
            easeInOutCubic ((900 - 1000 * 0.20 - 1000 * 0.60) / (1000 * 0.20)),
        max (calculateFitZoom ⟨idleAnim.pose.lat, idleAnim.pose.lng⟩
            ⟨paris.lat, paris.lng⟩ - 1) 1 +
          (paris.zoom - max (calculateFitZoom ⟨idleAnim.pose.lat,
              idleAnim.pose.lng⟩ ⟨paris.lat, paris.lng⟩ - 1) 1) *
            easeInOutCubic ((900 - 1000 * 0.20 - 1000 * 0.60) /
              (1000 * 0.20))⟩ := by
  obtain ⟨h1, h2, h3⟩ :=
    C4_three_phases idSqrt idleAnim paris 1000 false rfl (by norm_num)
  exact ⟨h1 100 (by norm_num),
    (h2 500 (by norm_num) (by norm_num)).1,
    (h2 500 (by norm_num) (by norm_num)).2 rfl (by norm_num),
    h3 900 (by norm_num)⟩

theorem C3_flyTo_noop_when_animating_witness :
    (flyTo idSqrt idleAnim paris 3500 false).animating = true ∧
    flyTo idSqrt (flyTo idSqrt idleAnim paris 3500 false) ⟨0, 0, 5⟩ 3500 false =
      flyTo idSqrt idleAnim paris 3500 false :=
  ⟨rfl, C3_flyTo_noop_when_animating _ _ _ _ _ rfl⟩

/-- A chapter record (the subset the reactor reads). -/
structure Chapter where
  id : String
  location : Location
deriving DecidableEq

/-- `MAP_CONFIG.introView` from the configuration:
`{ lat: 38, lng: 50, zoom: 3 }`. -/
def introView : Location := ⟨38, 50, 3⟩

/-- The reactor's state: `currentChapterRef.current` (`none` models the
initial `null`) together with the animator state. -/
structure NavState where
  currentChapter : Option String
  anim : AnimState
deriving DecidableEq

/-- The intro branch of the chapter-change effect: jump instantly to the
static intro pose and clear the line, only when not already at the intro
(idempotent). -/
def introJump (st : NavState) : NavState :=
  if st.currentChapter ≠ some "intro" then
    { currentChapter := some "intro"
      anim := { st.anim with
        pose := ⟨introView.lat, introView.lng, introView.zoom⟩
        flightLine := none } }
  else st

/-- The chapter-change effect of `MapController`: no-op in explore mode;
instant jump for the intro pseudo-chapter (`none` models a null/absent
active chapter); otherwise look up the chapter (no-op when missing), skip
duplicate events, record the new chapter and fly to it with the line
suppressed exactly when the previous chapter was the intro. -/
def handleChapterChange (s : SqrtFn) (st : NavState)
    (activeChapter : Option String) (chapters : List Chapter)
    (exploreMode : Bool) : NavState :=
  if exploreMode then st else
  match activeChapter with
  | none => introJump st
  | some cid =>
    if cid = "intro" then introJump st
    else
      match chapters.find? (fun c => c.id == cid) with
      | none => st
      | some chapter =>
        if st.currentChapter = some cid then st
        else
          let comingFromIntro := decide (st.currentChapter = some "intro")
          { currentChapter := some cid
            anim := flyTo s st.anim chapter.location 3500 comingFromIntro }

/-- The `flyTo` re-entrancy guard as a helper lemma. -/
theorem flyTo_of_animating {st : AnimState} (s : SqrtFn)
    (toLocation : Location) (d : ℚ) (sk : Bool) (h : st.animating = true) :
    flyTo s st toLocation d sk = st := by
  unfold flyTo
  rw [h]
  simp

/-- A frame of a skip-line flight does not touch the revealed line, and
leaves either the same flight scheduled or none (helper). -/
theorem tick_state_of_skip {st : AnimState} {fl : Flight} (e : ℚ)
    (h : st.flight = some fl) (hsk : fl.skipLine = true) :
    (tick st e).flightLine = st.flightLine ∧
    ((tick st e).flight = st.flight ∨ (tick st e).flight = none) := by
  unfold tick
  rw [h]
  dsimp only
  split_ifs <;> simp_all

/-- A single frame of a skip-line flight leaves a cleared line cleared and
keeps the scheduled flight (if any) a skip-line flight (helper). -/
theorem tick_skip_preserves {st : AnimState} (e : ℚ)
    (hline : st.flightLine = none)
    (hskip : ∀ fl, st.flight = some fl → fl.skipLine = true) :
    (tick st e).flightLine = none ∧
    ∀ fl, (tick st e).flight = some fl → fl.skipLine = true := by
  cases hfl : st.flight with
  | none =>
    have hid : tick st e = st := by
      unfold tick
      rw [hfl]
    rw [hid]
    exact ⟨hline, hskip⟩
  | some fl =>
    have hsk := hskip fl hfl
    obtain ⟨h1, h2⟩ := tick_state_of_skip e hfl hsk
    refine ⟨h1.trans hline, fun fl' h' => ?_⟩
    rcases h2 with h2 | h2
    · exact hskip fl' (h2.symm.trans h')
    · rw [h2] at h'
      cases h'

/-- Any sequence of frames of a skip-line flight leaves the line cleared
(helper). -/
theorem foldl_tick_skip {st : AnimState} (ts : List ℚ)
    (hline : st.flightLine = none)
    (hskip : ∀ fl, st.flight = some fl → fl.skipLine = true) :
    (ts.foldl tick st).flightLine = none := by
  induction ts generalizing st with
  | nil => exact hline
  | cons t ts ih =>
    obtain ⟨h1, h2⟩ := tick_skip_preserves t hline hskip
    exact ih h1 h2

/-- C6: explore mode suspends the reactor: a chapter-change event observed
with exploreMode = true leaves the navigation state — in particular the
camera pose — completely unchanged: no flight starts and no jump occurs. -/
theorem C6_explore_mode_suspends (s : SqrtFn) (st : NavState)
    (activeChapter : Option String) (chapters : List Chapter) :
    handleChapterChange s st activeChapter chapters true = st := by
  unfold handleChapterChange
  simp

/-- C5: a chapter-change event from the intro to a real chapter starts a
flight with skipLine = true, whose revealed flight path is cleared (`none`)
at the start and stays `none` after any sequence of frames, i.e. for the
entire duration of that flight. -/
theorem C5_intro_transition (s : SqrtFn) (st : NavState)
    (chapters : List Chapter) (cid : String) (chapter : Chapter)
    (hintro : st.currentChapter = some "intro")
    (hidle : st.anim.animating = false)
    (hcid : cid ≠ "intro")
    (hfind : chapters.find? (fun c => c.id == cid) = some chapter) :
    (handleChapterChange s st (some cid) chapters false).anim.animating =
      true ∧
    (handleChapterChange s st (some cid) chapters false).anim.flight =
      some (mkFlight s st.anim chapter.location 3500 true) ∧
    (handleChapterChange s st (some cid) chapters false).anim.flightLine =
      none ∧
    ∀ ts : List ℚ,
      (ts.foldl tick
        (handleChapterChange s st (some cid) chapters
          false).anim).flightLine = none := by
  have hne : st.currentChapter ≠ some cid := by
    rw [hintro]
    simp [Ne.symm hcid]
  have hstep : handleChapterChange s st (some cid) chapters false =
      { currentChapter := some cid
        anim := flyTo s st.anim chapter.location 3500 true } := by
    unfold handleChapterChange
    rw [if_neg (by simp)]
    dsimp only
    rw [if_neg hcid, hfind]
    dsimp only
    rw [if_neg hne]
    rw [hintro]
    simp
  rw [hstep]
  rw [flyTo_eq s chapter.location 3500 true hidle]
  refine ⟨rfl, rfl, rfl, fun ts => ?_⟩
  refine foldl_tick_skip ts rfl fun fl h => ?_
  cases h
  rfl

/-- C10: a chapter-change event to a new chapter that arrives while a
flight is active records the chapter as current while the guarded `flyTo`
is a no-op (the animator, camera and in-progress flight are unchanged), so
no flight to the chapter ever starts; and any later repeat of the same
event is a no-op because the chapter is already recorded as current — the
event is permanently dropped, never queued. -/
theorem C10_event_dropped_while_animating (s : SqrtFn) (st : NavState)
    (chapters : List Chapter) (cid : String) (chapter : Chapter)
    (hactive : st.anim.animating = true)
    (hne : st.currentChapter ≠ some cid)
    (hcid : cid ≠ "intro")
    (hfind : chapters.find? (fun c => c.id == cid) = some chapter) :
    handleChapterChange s st (some cid) chapters false =
      { currentChapter := some cid, anim := st.anim } ∧
    ∀ st2 : NavState, st2.currentChapter = some cid →
      handleChapterChange s st2 (some cid) chapters false = st2 := by
  constructor
  · unfold handleChapterChange
    rw [if_neg (by simp)]
    dsimp only
    rw [if_neg hcid, hfind]
    dsimp only
    rw [if_neg hne]
    rw [flyTo_of_animating s chapter.location 3500 _ hactive]
  · intro st2 h2
    unfold handleChapterChange
    rw [if_neg (by simp)]
    dsimp only
    rw [if_neg hcid, hfind]
    dsimp only
    rw [if_pos h2]

/-- A chapter list entry used in the scenario witnesses (helper). -/
def parisChapter : Chapter := ⟨"paris", paris⟩

/-- An animator state with a flight in progress (helper). -/
def busyAnim : AnimState := flyTo idSqrt idleAnim tgt10 1000 false

theorem C5_intro_transition_witness :
    (handleChapterChange idSqrt ⟨some "intro", idleAnim⟩ (some "paris")
      [parisChapter] false).anim.animating = true ∧
    (handleChapterChange idSqrt ⟨some "intro", idleAnim⟩ (some "paris")
      [parisChapter] false).anim.flight =
      some (mkFlight idSqrt idleAnim parisChapter.location 3500 true) ∧
    (handleChapterChange idSqrt ⟨some "intro", idleAnim⟩ (some "paris")
      [parisChapter] false).anim.flightLine = none ∧
    (([250, 3600] : List ℚ).foldl tick
      (handleChapterChange idSqrt ⟨some "intro", idleAnim⟩ (some "paris")
        [parisChapter] false).anim).flightLine = none := by
  obtain ⟨h1, h2, h3, h4⟩ := C5_intro_transition idSqrt
    ⟨some "intro", idleAnim⟩ [parisChapter] "paris" parisChapter rfl rfl
    (by decide) (List.find?_cons_of_pos _ (by simp [parisChapter]))
  exact ⟨h1, h2, h3, h4 [250, 3600]⟩

theorem C10_event_dropped_while_animating_witness :
    handleChapterChange idSqrt ⟨some "rome", busyAnim⟩ (some "paris")
      [parisChapter] false =
      { currentChapter := some "paris", anim := busyAnim } ∧
    handleChapterChange idSqrt ⟨some "paris", idleAnim⟩ (some "paris")
      [parisChapter] false = ⟨some "paris", idleAnim⟩ := by
  obtain ⟨h1, h2⟩ := C10_event_dropped_while_animating idSqrt
    ⟨some "rome", busyAnim⟩ [parisChapter] "paris" parisChapter rfl
    (by decide) (by decide) (List.find?_cons_of_pos _ (by simp [parisChapter]))
  exact ⟨h1, h2 ⟨some "paris", idleAnim⟩ rfl⟩

end Valentines

